import Mathlib

set_option maxRecDepth 40000

/-!
Verification development for the pxdgen declaration-translation engine.

The repository ships its example outputs (`stdio.pxd`, the `stdlib.h` and
`time.h` outputs), a C++ test header (`tests/cplusplus.hpp`) and a README
documenting the limitations of the tool.  The emitted `.pxd` files are embedded
below verbatim, one string per line, and the components of the translation
pipeline that are not shipped (type resolver, import resolver, emitter
rules) are modelled from the specification and exercised on declarations
translated from the test header.
-/

namespace PxdGen

/-- The stdlib.pxd output shipped with the repository (examples, second document of src/unnamed/part_000), one entry per line. -/
def stdlib_pxd_lines : List String := [
  "#  PXDGEN IMPORTS",
  "from libc.stdint cimport int32_t",
  "",
  "#  PXDGEN AUTO-DEFINED TYPES",
  "cdef extern from *:",
  "    ctypedef struct wchar_t:",
  "        pass",
  "",
  "",
  "cdef extern from \"stdlib.h\":",
  "    ctypedef struct div_t:",
  "        int quot",
  "        int rem",
  "    ctypedef struct ldiv_t:",
  "        long quot",
  "        long rem",
  "    ctypedef struct lldiv_t:",
  "        long long quot",
  "        long long rem",
  "    size_t __ctype_get_mb_cur_max()",
  "    double atof(const char* __nptr)",
  "    int atoi(const char* __nptr)",
  "    long atol(const char* __nptr)",
  "    long long atoll(const char* __nptr)",
  "    double strtod(const char *__nptr, char **__endptr)",
  "    float strtof(const char *__nptr, char **__endptr)",
  "    long double strtold(const char *__nptr, char **__endptr)",
  "    long strtol(const char *__nptr, char **__endptr, int __base)",
  "    unsigned long strtoul(const char *__nptr, char **__endptr, int __base)",
  "    long long strtoq(const char *__nptr, char **__endptr, int __base)",
  "    unsigned long long strtouq(const char *__nptr, char **__endptr, int __base)",
  "    long long strtoll(const char *__nptr, char **__endptr, int __base)",
  "    unsigned long long strtoull(const char *__nptr, char **__endptr, int __base)",
  "    char* l64a(long __n)",
  "    long a64l(const char* __s)",
  "    long random()",
  "    void srandom(unsigned int __seed)",
  "    char* initstate(unsigned int __seed, char* __statebuf, size_t __statelen)",
  "    char* setstate(char* __statebuf)",
  "    struct random_data:",
  "        int32_t* fptr",
  "        int32_t* rptr",
  "        int32_t* state",
  "        int rand_type",
  "        int rand_deg",
  "        int rand_sep",
  "        int32_t* end_ptr",
  "    int random_r(random_data *__buf, int32_t *__result)",
  "    int srandom_r(unsigned int __seed, random_data* __buf)",
  "    int initstate_r(unsigned int __seed, char *__statebuf, size_t __statelen, random_data *__buf)",
  "    int setstate_r(char *__statebuf, random_data *__buf)",
  "    int rand()",
  "    void srand(unsigned int __seed)",
  "    int rand_r(unsigned int* __seed)",
  "    double drand48()",
  "    double erand48(unsigned short __xsubi[3])",
  "    long lrand48()",
  "    long nrand48(unsigned short __xsubi[3])",
  "    long mrand48()",
  "    long jrand48(unsigned short __xsubi[3])",
  "    void srand48(long __seedval)",
  "    unsigned short* seed48(unsigned short __seed16v[3])",
  "    void lcong48(unsigned short __param[7])",
  "    struct drand48_data:",
  "        unsigned short __x[3]",
  "        unsigned short __old_x[3]",
  "        unsigned short __c",
  "        unsigned short __init",
  "        unsigned long long __a",
  "    int drand48_r(drand48_data *__buffer, double *__result)",
  "    int erand48_r(unsigned short __xsubi[3], drand48_data *__buffer, double *__result)",
  "    int lrand48_r(drand48_data *__buffer, long *__result)",
  "    int nrand48_r(unsigned short __xsubi[3], drand48_data *__buffer, long *__result)",
  "    int mrand48_r(drand48_data *__buffer, long *__result)",
  "    int jrand48_r(unsigned short __xsubi[3], drand48_data *__buffer, long *__result)",
  "    int srand48_r(long __seedval, drand48_data* __buffer)",
  "    int seed48_r(unsigned short __seed16v[3], drand48_data* __buffer)",
  "    int lcong48_r(unsigned short __param[7], drand48_data* __buffer)",
  "    void* malloc(size_t __size)",
  "    void* calloc(size_t __nmemb, size_t __size)",
  "    void* realloc(void* __ptr, size_t __size)",
  "    void* reallocarray(void* __ptr, size_t __nmemb, size_t __size)",
  "    void free(void* __ptr)",
  "    void* valloc(size_t __size)",
  "    int posix_memalign(void** __memptr, size_t __alignment, size_t __size)",
  "    void* aligned_alloc(size_t __alignment, size_t __size)",
  "    void abort()",
  "    int atexit(void (*__func)())",
  "    int at_quick_exit(void (*__func)())",
  "    int on_exit(void (*__func)(int, void *), void* __arg)",
  "    void exit(int __status)",
  "    void quick_exit(int __status)",
  "    void _Exit(int __status)",
  "    char* getenv(const char* __name)",
  "    int putenv(char* __string)",
  "    int setenv(const char* __name, const char* __value, int __replace)",
  "    int unsetenv(const char* __name)",
  "    int clearenv()",
  "    char* mktemp(char* __template)",
  "    int mkstemp(char* __template)",
  "    int mkstemps(char* __template, int __suffixlen)",
  "    char* mkdtemp(char* __template)",
  "    int system(const char* __command)",
  "    char* realpath(const char *__name, char *__resolved)",
  "    ctypedef int (*__compar_fn_t)(const void *, const void *)",
  "    void* bsearch(const void* __key, const void* __base, size_t __nmemb, size_t __size, __compar_fn_t __compar)",
  "    void qsort(void* __base, size_t __nmemb, size_t __size, __compar_fn_t __compar)",
  "    int abs(int __x)",
  "    long labs(long __x)",
  "    long long llabs(long long __x)",
  "    div_t div(int __numer, int __denom)",
  "    ldiv_t ldiv(long __numer, long __denom)",
  "    lldiv_t lldiv(long long __numer, long long __denom)",
  "    char* ecvt(double __value, int __ndigit, int *__decpt, int *__sign)",
  "    char* fcvt(double __value, int __ndigit, int *__decpt, int *__sign)",
  "    char* gcvt(double __value, int __ndigit, char* __buf)",
  "    char* qecvt(long double __value, int __ndigit, int *__decpt, int *__sign)",
  "    char* qfcvt(long double __value, int __ndigit, int *__decpt, int *__sign)",
  "    char* qgcvt(long double __value, int __ndigit, char* __buf)",
  "    int ecvt_r(double __value, int __ndigit, int *__decpt, int *__sign, char *__buf, size_t __len)",
  "    int fcvt_r(double __value, int __ndigit, int *__decpt, int *__sign, char *__buf, size_t __len)",
  "    int qecvt_r(long double __value, int __ndigit, int *__decpt, int *__sign, char *__buf, size_t __len)",
  "    int qfcvt_r(long double __value, int __ndigit, int *__decpt, int *__sign, char *__buf, size_t __len)",
  "    int mblen(const char* __s, size_t __n)",
  "    int mbtowc(wchar_t *__pwc, const char *__s, size_t __n)",
  "    int wctomb(char* __s, wchar_t __wchar)",
  "    size_t mbstowcs(wchar_t *__pwcs, const char *__s, size_t __n)",
  "    size_t wcstombs(char *__s, const wchar_t *__pwcs, size_t __n)",
  "    int rpmatch(const char* __response)",
  "    int getsubopt(char **__optionp, char *const *__tokens, char **__valuep)",
  "    int getloadavg(double __loadavg[], int __nelem)",
  "",
  ""
]

/-- The stdio.pxd output shipped with the repository (src/examples/std/stdio.pxd), one entry per line. -/
def stdio_pxd_lines : List String := [
  "#  PXDGEN AUTO-DEFINED TYPES",
  "cdef extern from *:",
  "#    Bug: anonymous declarations",
  "#    ctypedef struct (anonymous union at /usr/include/x86_64-linux-gnu/bits/types/__mbstate_t.h:16:3):",
  "#        pass",
  "    ctypedef struct __builtin_va_list:",
  "        pass",
  "",
  "",
  "cdef extern from \"stdio.h\":",
  "    ctypedef unsigned long size_t",
  "    ctypedef __builtin_va_list va_list",
  "    ctypedef __builtin_va_list __gnuc_va_list",
  "    ctypedef unsigned char __u_char",
  "    ctypedef unsigned short __u_short",
  "    ctypedef unsigned int __u_int",
  "    ctypedef unsigned long __u_long",
  "    ctypedef signed char __int8_t",
  "    ctypedef unsigned char __uint8_t",
  "    ctypedef short __int16_t",
  "    ctypedef unsigned short __uint16_t",
  "    ctypedef int __int32_t",
  "    ctypedef unsigned int __uint32_t",
  "    ctypedef long __int64_t",
  "    ctypedef unsigned long __uint64_t",
  "    ctypedef __int8_t __int_least8_t",
  "    ctypedef __uint8_t __uint_least8_t",
  "    ctypedef __int16_t __int_least16_t",
  "    ctypedef __uint16_t __uint_least16_t",
  "    ctypedef __int32_t __int_least32_t",
  "    ctypedef __uint32_t __uint_least32_t",
  "    ctypedef __int64_t __int_least64_t",
  "    ctypedef __uint64_t __uint_least64_t",
  "    ctypedef long __quad_t",
  "    ctypedef unsigned long __u_quad_t",
  "    ctypedef long __intmax_t",
  "    ctypedef unsigned long __uintmax_t",
  "    ctypedef unsigned long __dev_t",
  "    ctypedef unsigned int __uid_t",
  "    ctypedef unsigned int __gid_t",
  "    ctypedef unsigned long __ino_t",
  "    ctypedef unsigned long __ino64_t",
  "    ctypedef unsigned int __mode_t",
  "    ctypedef unsigned long __nlink_t",
  "    ctypedef long __off_t",
  "    ctypedef long __off64_t",
  "    ctypedef int __pid_t",
  "    ctypedef struct __fsid_t:",
  "        int __val[2]",
  "    ctypedef long __clock_t",
  "    ctypedef unsigned long __rlim_t",
  "    ctypedef unsigned long __rlim64_t",
  "    ctypedef unsigned int __id_t",
  "    ctypedef long __time_t",
  "    ctypedef unsigned int __useconds_t",
  "    ctypedef long __suseconds_t",
  "    ctypedef int __daddr_t",
  "    ctypedef int __key_t",
  "    ctypedef int __clockid_t",
  "    ctypedef void* __timer_t",
  "    ctypedef long __blksize_t",
  "    ctypedef long __blkcnt_t",
  "    ctypedef long __blkcnt64_t",
  "    ctypedef unsigned long __fsblkcnt_t",
  "    ctypedef unsigned long __fsblkcnt64_t",
  "    ctypedef unsigned long __fsfilcnt_t",
  "    ctypedef unsigned long __fsfilcnt64_t",
  "    ctypedef long __fsword_t",
  "    ctypedef long __ssize_t",
  "    ctypedef long __syscall_slong_t",
  "    ctypedef unsigned long __syscall_ulong_t",
  "    ctypedef __off64_t __loff_t",
  "    ctypedef char* __caddr_t",
  "    ctypedef long __intptr_t",
  "    ctypedef unsigned int __socklen_t",
  "    ctypedef int __sig_atomic_t",
  "    ctypedef struct __mbstate_t:",
  "        int __count",
  "#        (anonymous union at /usr/include/x86_64-linux-gnu/bits/types/__mbstate_t.h:16:3) __value",
  "    struct _G_fpos_t:",
  "        __off_t __pos",
  "        __mbstate_t __state",
  "    ctypedef _G_fpos_t __fpos_t",
  "    struct _G_fpos64_t:",
  "        __off64_t __pos",
  "        __mbstate_t __state",
  "    ctypedef _G_fpos64_t __fpos64_t",
  "    struct _IO_FILE:",
  "        pass",
  "    ctypedef _IO_FILE __FILE",
  "    struct _IO_FILE:",
  "        pass",
  "    ctypedef _IO_FILE FILE",
  "    struct _IO_FILE:",
  "        pass",
  "    struct _IO_marker:",
  "        pass",
  "    struct _IO_codecvt:",
  "        pass",
  "    struct _IO_wide_data:",
  "        pass",
  "    ctypedef void _IO_lock_t",
  "    struct _IO_FILE:",
  "        int _flags",
  "        char* _IO_read_ptr",
  "        char* _IO_read_end",
  "        char* _IO_read_base",
  "        char* _IO_write_base",
  "        char* _IO_write_ptr",
  "        char* _IO_write_end",
  "        char* _IO_buf_base",
  "        char* _IO_buf_end",
  "        char* _IO_save_base",
  "        char* _IO_backup_base",
  "        char* _IO_save_end",
  "        _IO_marker* _markers",
  "        _IO_FILE* _chain",
  "        int _fileno",
  "        int _flags2",
  "        __off_t _old_offset",
  "        unsigned short _cur_column",
  "        signed char _vtable_offset",
  "        char _shortbuf[1]",
  "        _IO_lock_t* _lock",
  "        __off64_t _offset",
  "        _IO_codecvt* _codecvt",
  "        _IO_wide_data* _wide_data",
  "        _IO_FILE* _freeres_list",
  "        void* _freeres_buf",
  "        size_t __pad5",
  "        int _mode",
  "        char _unused2[20]",
  "#    ctypedef __gnuc_va_list va_list",
  "    ctypedef __off_t off_t",
  "    ctypedef __ssize_t ssize_t",
  "    ctypedef __fpos_t fpos_t",
  "    FILE* stdin",
  "    FILE* stdout",
  "    FILE* stderr",
  "    int remove(const char* __filename)",
  "    int rename(const char* __old, const char* __new)",
  "    int renameat(int __oldfd, const char* __old, int __newfd, const char* __new)",
  "    FILE* tmpfile()",
  "    char* tmpnam(char* __s)",
  "    char* tmpnam_r(char* __s)",
  "    char* tempnam(const char* __dir, const char* __pfx)",
  "    int fclose(FILE* __stream)",
  "    int fflush(FILE* __stream)",
  "    int fflush_unlocked(FILE* __stream)",
  "    FILE* fopen(const char *__filename, const char *__modes)",
  "    FILE* freopen(const char *__filename, const char *__modes, FILE *__stream)",
  "    FILE* fdopen(int __fd, const char* __modes)",
  "    FILE* fmemopen(void* __s, size_t __len, const char* __modes)",
  "    FILE* open_memstream(char** __bufloc, size_t* __sizeloc)",
  "    void setbuf(FILE *__stream, char *__buf)",
  "    int setvbuf(FILE *__stream, char *__buf, int __modes, size_t __n)",
  "    void setbuffer(FILE *__stream, char *__buf, size_t __size)",
  "    void setlinebuf(FILE* __stream)",
  "    int fprintf(FILE *__stream, const char *__format)",
  "    int printf(const char *__format)",
  "    int sprintf(char *__s, const char *__format)",
  "    int vfprintf(FILE *__s, const char *__format, __gnuc_va_list __arg)",
  "    int vprintf(const char *__format, __gnuc_va_list __arg)",
  "    int vsprintf(char *__s, const char *__format, __gnuc_va_list __arg)",
  "    int snprintf(char *__s, size_t __maxlen, const char *__format)",
  "    int vsnprintf(char *__s, size_t __maxlen, const char *__format, __gnuc_va_list __arg)",
  "    int vdprintf(int __fd, const char *__fmt, __gnuc_va_list __arg)",
  "    int dprintf(int __fd, const char *__fmt)",
  "    int fscanf(FILE *__stream, const char *__format)",
  "    int scanf(const char *__format)",
  "    int sscanf(const char *__s, const char *__format)",
  "    int fscanf(FILE *__stream, const char *__format)",
  "    int scanf(const char *__format)",
  "    int sscanf(const char *__s, const char *__format)",
  "    int vfscanf(FILE *__s, const char *__format, __gnuc_va_list __arg)",
  "    int vscanf(const char *__format, __gnuc_va_list __arg)",
  "    int vsscanf(const char *__s, const char *__format, __gnuc_va_list __arg)",
  "    int vfscanf(FILE *__s, const char *__format, __gnuc_va_list __arg)",
  "    int vscanf(const char *__format, __gnuc_va_list __arg)",
  "    int vsscanf(const char *__s, const char *__format, __gnuc_va_list __arg)",
  "    int fgetc(FILE* __stream)",
  "    int getc(FILE* __stream)",
  "    int getchar()",
  "    int getc_unlocked(FILE* __stream)",
  "    int getchar_unlocked()",
  "    int fgetc_unlocked(FILE* __stream)",
  "    int fputc(int __c, FILE* __stream)",
  "    int putc(int __c, FILE* __stream)",
  "    int putchar(int __c)",
  "    int fputc_unlocked(int __c, FILE* __stream)",
  "    int putc_unlocked(int __c, FILE* __stream)",
  "    int putchar_unlocked(int __c)",
  "    int getw(FILE* __stream)",
  "    int putw(int __w, FILE* __stream)",
  "    char* fgets(char *__s, int __n, FILE *__stream)",
  "    __ssize_t __getdelim(char **__lineptr, size_t *__n, int __delimiter, FILE *__stream)",
  "    __ssize_t getdelim(char **__lineptr, size_t *__n, int __delimiter, FILE *__stream)",
  "    __ssize_t getline(char **__lineptr, size_t *__n, FILE *__stream)",
  "    int fputs(const char *__s, FILE *__stream)",
  "    int puts(const char* __s)",
  "    int ungetc(int __c, FILE* __stream)",
  "    unsigned long fread(void *__ptr, size_t __size, size_t __n, FILE *__stream)",
  "    unsigned long fwrite(const void *__ptr, size_t __size, size_t __n, FILE *__s)",
  "    size_t fread_unlocked(void *__ptr, size_t __size, size_t __n, FILE *__stream)",
  "    size_t fwrite_unlocked(const void *__ptr, size_t __size, size_t __n, FILE *__stream)",
  "    int fseek(FILE* __stream, long __off, int __whence)",
  "    long ftell(FILE* __stream)",
  "    void rewind(FILE* __stream)",
  "    int fseeko(FILE* __stream, __off_t __off, int __whence)",
  "    __off_t ftello(FILE* __stream)",
  "    int fgetpos(FILE *__stream, fpos_t *__pos)",
  "    int fsetpos(FILE* __stream, const fpos_t* __pos)",
  "    void clearerr(FILE* __stream)",
  "    int feof(FILE* __stream)",
  "    int ferror(FILE* __stream)",
  "    void clearerr_unlocked(FILE* __stream)",
  "    int feof_unlocked(FILE* __stream)",
  "    int ferror_unlocked(FILE* __stream)",
  "    void perror(const char* __s)",
  "    int sys_nerr",
  "    const char *const sys_errlist[]",
  "    int fileno(FILE* __stream)",
  "    int fileno_unlocked(FILE* __stream)",
  "    FILE* popen(const char* __command, const char* __modes)",
  "    int pclose(FILE* __stream)",
  "    char* ctermid(char* __s)",
  "    void flockfile(FILE* __stream)",
  "    int ftrylockfile(FILE* __stream)",
  "    void funlockfile(FILE* __stream)",
  "    int __uflow(FILE*)",
  "    int __overflow(FILE*, int)",
  "",
  ""
]

/-- The time.h output shipped with the repository (src/unnamed/part_001), one entry per line. -/
def ctime_pxd_lines : List String := [
  "#  PXDGEN AUTO-DEFINED TYPES",
  "cdef extern from *:",
  "    ctypedef struct __locale_data:",
  "        pass",
  "",
  "",
  "cdef extern from \"time.h\":",
  "    ctypedef unsigned long size_t",
  "    ctypedef unsigned char __u_char",
  "    ctypedef unsigned short __u_short",
  "    ctypedef unsigned int __u_int",
  "    ctypedef unsigned long __u_long",
  "    ctypedef signed char __int8_t",
  "    ctypedef unsigned char __uint8_t",
  "    ctypedef short __int16_t",
  "    ctypedef unsigned short __uint16_t",
  "    ctypedef int __int32_t",
  "    ctypedef unsigned int __uint32_t",
  "    ctypedef long __int64_t",
  "    ctypedef unsigned long __uint64_t",
  "    ctypedef __int8_t __int_least8_t",
  "    ctypedef __uint8_t __uint_least8_t",
  "    ctypedef __int16_t __int_least16_t",
  "    ctypedef __uint16_t __uint_least16_t",
  "    ctypedef __int32_t __int_least32_t",
  "    ctypedef __uint32_t __uint_least32_t",
  "    ctypedef __int64_t __int_least64_t",
  "    ctypedef __uint64_t __uint_least64_t",
  "    ctypedef long __quad_t",
  "    ctypedef unsigned long __u_quad_t",
  "    ctypedef long __intmax_t",
  "    ctypedef unsigned long __uintmax_t",
  "    ctypedef unsigned long __dev_t",
  "    ctypedef unsigned int __uid_t",
  "    ctypedef unsigned int __gid_t",
  "    ctypedef unsigned long __ino_t",
  "    ctypedef unsigned long __ino64_t",
  "    ctypedef unsigned int __mode_t",
  "    ctypedef unsigned long __nlink_t",
  "    ctypedef long __off_t",
  "    ctypedef long __off64_t",
  "    ctypedef int __pid_t",
  "    ctypedef struct __fsid_t:",
  "        int __val[2]",
  "    ctypedef long __clock_t",
  "    ctypedef unsigned long __rlim_t",
  "    ctypedef unsigned long __rlim64_t",
  "    ctypedef unsigned int __id_t",
  "    ctypedef long __time_t",
  "    ctypedef unsigned int __useconds_t",
  "    ctypedef long __suseconds_t",
  "    ctypedef int __daddr_t",
  "    ctypedef int __key_t",
  "    ctypedef int __clockid_t",
  "    ctypedef void* __timer_t",
  "    ctypedef long __blksize_t",
  "    ctypedef long __blkcnt_t",
  "    ctypedef long __blkcnt64_t",
  "    ctypedef unsigned long __fsblkcnt_t",
  "    ctypedef unsigned long __fsblkcnt64_t",
  "    ctypedef unsigned long __fsfilcnt_t",
  "    ctypedef unsigned long __fsfilcnt64_t",
  "    ctypedef long __fsword_t",
  "    ctypedef long __ssize_t",
  "    ctypedef long __syscall_slong_t",
  "    ctypedef unsigned long __syscall_ulong_t",
  "    ctypedef __off64_t __loff_t",
  "    ctypedef char* __caddr_t",
  "    ctypedef long __intptr_t",
  "    ctypedef unsigned int __socklen_t",
  "    ctypedef int __sig_atomic_t",
  "    ctypedef __clock_t clock_t",
  "    ctypedef __time_t time_t",
  "    struct tm:",
  "        int tm_sec",
  "        int tm_min",
  "        int tm_hour",
  "        int tm_mday",
  "        int tm_mon",
  "        int tm_year",
  "        int tm_wday",
  "        int tm_yday",
  "        int tm_isdst",
  "        long tm_gmtoff",
  "        const char* tm_zone",
  "    struct timespec:",
  "        __time_t tv_sec",
  "        __syscall_slong_t tv_nsec",
  "    ctypedef __clockid_t clockid_t",
  "    ctypedef __timer_t timer_t",
  "    struct itimerspec:",
  "        timespec it_interval",
  "        timespec it_value",
  "    struct sigevent:",
  "        pass",
  "    ctypedef __pid_t pid_t",
  "    struct __locale_struct:",
  "        __locale_data* __locales[13]",
  "        const unsigned short* __ctype_b",
  "        const int* __ctype_tolower",
  "        const int* __ctype_toupper",
  "        const char* __names[13]",
  "    ctypedef __locale_struct* __locale_t",
  "    ctypedef __locale_t locale_t",
  "    clock_t clock()",
  "    time_t time(time_t* __timer)",
  "    double difftime(time_t __time1, time_t __time0)",
  "    time_t mktime(tm* __tp)",
  "    size_t strftime(char *__s, size_t __maxsize, const char *__format, const tm *__tp)",
  "    size_t strftime_l(char *__s, size_t __maxsize, const char *__format, const tm *__tp, locale_t __loc)",
  "    tm* gmtime(const time_t* __timer)",
  "    tm* localtime(const time_t* __timer)",
  "    tm* gmtime_r(const time_t *__timer, tm *__tp)",
  "    tm* localtime_r(const time_t *__timer, tm *__tp)",
  "    char* asctime(const tm* __tp)",
  "    char* ctime(const time_t* __timer)",
  "    char* asctime_r(const tm *__tp, char *__buf)",
  "    char* ctime_r(const time_t *__timer, char *__buf)",
  "    char* __tzname[2]",
  "    int __daylight",
  "    long __timezone",
  "    char* tzname[2]",
  "    void tzset()",
  "    int daylight",
  "    long timezone",
  "    time_t timegm(tm* __tp)",
  "    time_t timelocal(tm* __tp)",
  "    int dysize(int __year)",
  "    int nanosleep(const timespec* __requested_time, timespec* __remaining)",
  "    int clock_getres(clockid_t __clock_id, timespec* __res)",
  "    int clock_gettime(clockid_t __clock_id, timespec* __tp)",
  "    int clock_settime(clockid_t __clock_id, const timespec* __tp)",
  "    int clock_nanosleep(clockid_t __clock_id, int __flags, const timespec* __req, timespec* __rem)",
  "    int clock_getcpuclockid(pid_t __pid, clockid_t* __clock_id)",
  "    int timer_create(clockid_t __clock_id, sigevent *__evp, timer_t *__timerid)",
  "    int timer_delete(timer_t __timerid)",
  "    int timer_settime(timer_t __timerid, int __flags, const itimerspec *__value, itimerspec *__ovalue)",
  "    int timer_gettime(timer_t __timerid, itimerspec* __value)",
  "    int timer_getoverrun(timer_t __timerid)",
  "    int timespec_get(timespec* __ts, int __base)",
  "",
  ""
]

/-- The Bugs/Limitations section of the repository README, one entry per bullet. -/
def readme_limitations : List String :=
  [ "No Union support yet",
    "Anonymous struct/enum/union declarations do not output properly",
    "Experimental C++ support",
    "Experimental type resolution",
    "Declarations with C/C++ keywords in the name are sometimes not output properly" ]

/-! ### Line classifiers for the emitted output format -/

/-- Whether `pat` occurs as a contiguous run somewhere in `l`. -/
def containsSub (pat : List Char) : List Char → Bool
  | [] => pat.isEmpty
  | c :: rest => pat.isPrefixOf (c :: rest) || containsSub pat rest

/-- Whether `pat` occurs as a substring of line `l`. -/
def mentionsStr (pat l : String) : Bool := containsSub pat.data l.data

/-- Whether `pat` is a prefix of line `l` (checked on the character lists, which
the kernel evaluates directly). -/
def strHasPrefix (pat l : String) : Bool := pat.data.isPrefixOf l.data

/-- The line is a comment in the output format. -/
def isCommentLine (l : String) : Bool := strHasPrefix "#" l

/-- The line is an alias/cimport line of the import section. -/
def isImportLine (l : String) : Bool := strHasPrefix "from " l || strHasPrefix "cimport " l

/-- The marker opening the synthetic stub section. -/
def isStubMarker (l : String) : Bool := l == "#  PXDGEN AUTO-DEFINED TYPES"

/-- The extern block holding real declarations read from a named header. -/
def isRealExternLine (l : String) : Bool := strHasPrefix "cdef extern from \"" l

/-- Indices of the lines satisfying `p`. -/
def idxsWhere (p : String → Bool) (lines : List String) : List Nat :=
  (lines.enum.filter (fun x => p x.2)).map (fun x => x.1)

/-- Index of the first line satisfying `p` (the length when there is none). -/
def firstIdx (p : String → Bool) (lines : List String) : Nat := lines.findIdx p

/-- Indices of the nonblank lines of the synthetic stub section: from the
stub marker up to the first real extern block. -/
def stubSectionIdxs (lines : List String) : List Nat :=
  (lines.enum.filter
    (fun x => decide (firstIdx isStubMarker lines ≤ x.1) &&
      decide (x.1 < firstIdx isRealExternLine lines) && x.2 != "")).map (fun x => x.1)

/-- Indices of the nonblank lines of the real declaration section. -/
def realSectionIdxs (lines : List String) : List Nat :=
  (lines.enum.filter
    (fun x => decide (firstIdx isRealExternLine lines ≤ x.1) && x.2 != "")).map (fun x => x.1)

/-- The section order the specification claims: every stub line precedes
every import line, and every import line precedes every real declaration. -/
def claimedSectionOrder (lines : List String) : Bool :=
  ((stubSectionIdxs lines).all fun i => (idxsWhere isImportLine lines).all fun j =>
    decide (i < j)) &&
  ((idxsWhere isImportLine lines).all fun j => (realSectionIdxs lines).all fun k =>
    decide (j < k))

/-- The section order the shipped outputs follow: every import line precedes
every stub line, and every stub line precedes every real declaration. -/
def emittedSectionOrder (lines : List String) : Bool :=
  ((idxsWhere isImportLine lines).all fun j => (stubSectionIdxs lines).all fun i =>
    decide (j < i)) &&
  ((stubSectionIdxs lines).all fun i => (realSectionIdxs lines).all fun k =>
    decide (i < k)) &&
  ((idxsWhere isImportLine lines).all fun j => (realSectionIdxs lines).all fun k =>
    decide (j < k))

/-- The line contains a variadic ellipsis token `...`. -/
def hasEllipsis : List Char → Bool
  | c1 :: c2 :: rest =>
    (c1 == '.' && c2 == '.' && rest.headD ' ' == '.') || hasEllipsis (c2 :: rest)
  | _ => false

/-! ### Declaration model and emitter rules

The Python implementation of the pipeline is not shipped in `src/`; the
components below are modelled from the specification and exercised on
declarations translated from `tests/cplusplus.hpp`. -/

/-- Access specifier of a class/struct member. -/
inductive Access where
  | pub
  | prot
  | priv
deriving DecidableEq, Repr

/-- A class/struct member as seen by the emitter: its name and its access
specifier. -/
structure Member where
  name : String
  access : Access
deriving DecidableEq, Repr

/-- Modelled from the spec: the Declaration Emitter emits only non-private
members for class/struct bodies (rule of section 4.4; the emitter source is
not under `src/`). -/
def emitClassBody (ms : List Member) : List Member :=
  ms.filter (fun m => decide (m.access ≠ Access.priv))

/-- The members of `class A` of namespace `Foo` in `tests/cplusplus.hpp`,
in source order: the constructors, methods and fields are public, the inner
class is public, and the field `hidden` is declared after `private:`. -/
def classAMembers : List Member :=
  [ ⟨"A", Access.pub⟩, ⟨"A", Access.pub⟩, ⟨"static_method", Access.pub⟩,
    ⟨"instance_method", Access.pub⟩, ⟨"fptrfield", Access.pub⟩,
    ⟨"s", Access.pub⟩, ⟨"vs", Access.pub⟩, ⟨"ip", Access.pub⟩,
    ⟨"l", Access.pub⟩, ⟨"t", Access.pub⟩, ⟨"tt", Access.pub⟩,
    ⟨"truefalse", Access.pub⟩, ⟨"Inner", Access.pub⟩,
    ⟨"hidden", Access.priv⟩ ]

/-- Modelled from the spec: the enum rule of the Declaration Emitter (section
4.4; the emitter source is not under `src/`) — an explicit literal is kept,
and an implicit member continues from the value following that of the
previous member, carried in the accumulator `next`. -/
def enumValues : List (String × Option Int) → Int → List (String × Int)
  | [], _ => []
  | (n, some v) :: rest, _ => (n, v) :: enumValues rest (v + 1)
  | (n, none) :: rest, next => (n, next) :: enumValues rest (next + 1)

/-- The members of `typedef enum ... D` in `tests/cplusplus.hpp`:
`FOO = 10`, `BAR = 1`, and `BAZ` with no explicit value. -/
def enumD : List (String × Option Int) :=
  [("FOO", some 10), ("BAR", some 1), ("BAZ", none)]

/-- A cross-file import edge: consuming package, referenced foreign
package, and the alias it is bound to (data model of section 3). -/
structure ImportEdge where
  consumer : List String
  referenced : List String
  aliasName : String
deriving DecidableEq, Repr

/-- Resolution outcome of a named type reference (resolution states of the
data model in section 3). -/
inductive Resolution where
  | direct (text : String)
  | crossPackage (edge : ImportEdge) (text : String)
  | unresolvedRes
deriving DecidableEq, Repr

/-- Modelled from the spec: the alias naming rule — the foreign qualified
path is joined with an underscore separator (section 4.3). -/
def aliasFor (path : List String) : String := String.intercalate "_" path

/-- Modelled from the spec: step 3 of the Type Resolver (section 4.3; the
resolver source is not under `src/`).  `symbols` maps each qualified name of
the graph to its owning package.  A name owned by the consuming package is
referenced directly; a name owned by a different package is marked
cross-package and referenced through the alias of its qualified prefix. -/
def resolveNamed (symbols : List (List String × List String))
    (consumer : List String) (qname : List String) : Resolution :=
  match symbols.find? (fun e => decide (e.1 = qname)) with
  | none => Resolution.unresolvedRes
  | some e =>
    if e.2 = consumer then Resolution.direct (qname.getLastD "")
    else
      Resolution.crossPackage ⟨consumer, qname.dropLast, aliasFor qname.dropLast⟩
        (aliasFor qname.dropLast ++ "." ++ qname.getLastD "")

/-- The symbol table translated from `tests/cplusplus.hpp`: each named
qualified name of each named declaration and the package (innermost
namespace) that owns it.  Inner classes stay in the package of their outer
class. -/
def cppSymbols : List (List String × List String) :=
  [ (["Foo", "A"], ["Foo"]),
    (["Foo", "A", "Inner"], ["Foo"]),
    (["Foo", "TypedefInt"], ["Foo"]),
    (["Foo", "SizedRef"], ["Foo"]),
    (["Foo", "Action"], ["Foo"]),
    (["Foo", "a_static_string"], ["Foo"]),
    (["Foo", "B"], ["Foo"]),
    (["Foo", "B", "Dataset"], ["Foo"]),
    (["Foo", "C"], ["Foo"]),
    (["Foo", "D"], ["Foo"]),
    (["Foo", "E"], ["Foo"]),
    (["Foo", "a_function"], ["Foo"]),
    (["Foo", "forward_decl"], ["Foo"]),
    (["Bar", "BarInt"], ["Bar"]),
    (["Bar", "Baz", "BazInt"], ["Bar", "Baz"]),
    (["Bar", "A"], ["Bar"]) ]

/-- The named type references made by the declarations of package
`Bar::Baz` in `tests/cplusplus.hpp`, in source order: `BazInt` refers to
`Bar::BarInt` and `get_dataset` returns `Foo::B::Dataset`. -/
def barBazRefs : List (List String) := [["Bar", "BarInt"], ["Foo", "B", "Dataset"]]

/-- The resolutions of the references made by package `Bar::Baz`. -/
def barBazResolutions : List Resolution :=
  barBazRefs.map (resolveNamed cppSymbols ["Bar", "Baz"])

/-- Modelled from the spec: the Cross-File Import Resolver (section 4.5;
its source is not under `src/`) — scan the resolutions for cross-package
edges, keep first use, drop duplicates. -/
def collectImports : List Resolution → List ImportEdge → List ImportEdge
  | [], _ => []
  | Resolution.crossPackage e _ :: rest, seen =>
    if e ∈ seen then collectImports rest seen
    else e :: collectImports rest (e :: seen)
  | _ :: rest, seen => collectImports rest seen

/-- Modelled from the spec: the stub generator of the Type Resolver
(section 4.3; its source is not under `src/`) — walk the referenced names
of a package, and for each name with no declaration in the graph and not
already stubbed, produce one stub, deduplicated across the whole package. -/
def collectStubs (known : List String) : List String → List String → List String
  | [], _ => []
  | n :: rest, seen =>
    if n ∈ known ∨ n ∈ seen then collectStubs known rest seen
    else n :: collectStubs known rest (n :: seen)

/-! ### Type references and their emission

Modelled from the spec: a `TypeRef` is a base name with template
arguments, wrapped by pointer and const qualifier layers; a function
pointer keeps its whole parameter/return signature as one composite value
(section 4.1).  Emission is modelled down to a token list, and the emitted
text is the rendering of that token list, so arity, pointer depth and
const qualifiers are measurable on the emitted form. -/
inductive CType where
  | named (base : String) (targs : List CType)
  | ptr (t : CType)
  | constQ (t : CType)
  | funType (ret : CType) (params : List CType)

/-- One token of the emitted type text. -/
inductive CyTok where
  | ident (s : String)
  | star
  | constTok
  | lparen
  | rparen
  | lbrack
  | rbrack
  | comma
deriving DecidableEq, Repr

mutual

/-- Modelled from the spec: token-level emission of a type reference —
qualifier layers are re-applied around the base exactly (section 4.3 step
2), and a function type is rendered with its full signature. -/
def emitToks : CType → List CyTok
  | CType.named b [] => [CyTok.ident b]
  | CType.named b (a :: as) =>
    [CyTok.ident b, CyTok.lbrack] ++ emitArgsToks (a :: as) ++ [CyTok.rbrack]
  | CType.ptr t => emitToks t ++ [CyTok.star]
  | CType.constQ t => CyTok.constTok :: emitToks t
  | CType.funType r ps =>
    emitToks r ++ [CyTok.lparen, CyTok.star, CyTok.rparen, CyTok.lparen] ++
      emitArgsToks ps ++ [CyTok.rparen]

/-- Comma-separated emission of a list of type references. -/
def emitArgsToks : List CType → List CyTok
  | [] => []
  | [t] => emitToks t
  | t :: t2 :: ts => emitToks t ++ CyTok.comma :: emitArgsToks (t2 :: ts)

end

/-- Modelled from the spec: emission of a function-pointer-typed field —
the return type, the declarator holding exactly `depth` pointer stars and
the field name, then the parameter list (sections 4.1 and 4.4). -/
def emitFunPtrField (name : String) (ret : CType) (depth : Nat) (ps : List CType) :
    List CyTok :=
  emitToks ret ++ CyTok.lparen :: List.replicate depth CyTok.star ++
    [CyTok.ident name, CyTok.rparen, CyTok.lparen] ++ emitArgsToks ps ++ [CyTok.rparen]

/-- Iterated pointer wrapping. -/
def ptrN : Nat → CType → CType
  | 0, t => t
  | d + 1, t => CType.ptr (ptrN d t)

/-- The full signature stored in a (possibly pointer-wrapped) function
type: its return type and its ordered parameter list. -/
def funSig : CType → Option (CType × List CType)
  | CType.ptr t => funSig t
  | CType.funType r ps => some (r, ps)
  | _ => none

mutual

/-- Pointer stars a type renders to: one per pointer layer, plus the
declarator star of a rendered function type. -/
def ptrStars : CType → Nat
  | CType.named _ as => ptrStarsList as
  | CType.ptr t => ptrStars t + 1
  | CType.constQ t => ptrStars t
  | CType.funType r ps => ptrStars r + ptrStarsList ps + 1

def ptrStarsList : List CType → Nat
  | [] => 0
  | t :: ts => ptrStars t + ptrStarsList ts

end

mutual

/-- Const qualifier layers carried by a type, its template arguments and
its parameters. -/
def constLayers : CType → Nat
  | CType.named _ as => constLayersList as
  | CType.ptr t => constLayers t
  | CType.constQ t => constLayers t + 1
  | CType.funType r ps => constLayers r + constLayersList ps

def constLayersList : List CType → Nat
  | [] => 0
  | t :: ts => constLayers t + constLayersList ts

end

/-- The type of field `foobar` of `struct B` in `tests/cplusplus.hpp`:
`int (**foobar)(std::vector<std::vector<const char*>>)` — a double pointer
to a function returning `int` and taking one parameter, a vector of
vectors of pointer-to-const-char. -/
def foobarParam : CType :=
  CType.named "std::vector"
    [CType.named "std::vector" [CType.ptr (CType.constQ (CType.named "char" []))]]

/-- The composite type reference of field `foobar`. -/
def foobarType : CType := ptrN 2 (CType.funType (CType.named "int" []) [foobarParam])

/-- Number of pointer stars in a token list. -/
def starCount : List CyTok → Nat
  | [] => 0
  | CyTok.star :: ts => starCount ts + 1
  | _ :: ts => starCount ts

/-- Number of const qualifiers in a token list. -/
def constCount : List CyTok → Nat
  | [] => 0
  | CyTok.constTok :: ts => constCount ts + 1
  | _ :: ts => constCount ts

/-! ### Claim theorems -/

/-- C1 counterexample: the claimed section order (stubs, then imports, then
real declarations) fails on the shipped stdlib output — the import line at
index 1 precedes the stub-section line `cdef extern from *:` at index 4, so
a stub line appears after an import line. -/
theorem claimed_section_order_counterexample :
    stdlib_pxd_lines.get? 1 = some "from libc.stdint cimport int32_t" ∧
    isImportLine "from libc.stdint cimport int32_t" = true ∧
    stdlib_pxd_lines.get? 4 = some "cdef extern from *:" ∧
    4 ∈ stubSectionIdxs stdlib_pxd_lines ∧
    1 ∈ idxsWhere isImportLine stdlib_pxd_lines ∧
    claimedSectionOrder stdlib_pxd_lines = false := by
  refine ⟨by decide, by decide, by decide, by decide, by decide, by decide⟩

/-- C1 (amended): in every shipped output the import section comes first,
then the synthetic stub section, then the real declaration section; no
alias-import line appears after a stub line and no stub line appears after
a real declaration. -/
theorem emitted_section_order_all_outputs :
    emittedSectionOrder stdlib_pxd_lines = true ∧
    emittedSectionOrder stdio_pxd_lines = true ∧
    emittedSectionOrder ctime_pxd_lines = true := by
  refine ⟨by decide, by decide, by decide⟩

/-- C7 counterexample: the union member `__value` of `__mbstate_t` (the
only union reaching the shipped outputs) is not emitted — every line
mentioning it is a comment — and the README documents that unions are
unsupported. -/
theorem union_members_emitted_counterexample :
    ((stdio_pxd_lines.filter (fun l => !(isCommentLine l))).any
      (fun l => mentionsStr "__value" l)) = false ∧
    stdio_pxd_lines.count
      "#        (anonymous union at /usr/include/x86_64-linux-gnu/bits/types/__mbstate_t.h:16:3) __value" = 1 ∧
    "No Union support yet" ∈ readme_limitations := by
  refine ⟨by decide, by decide, by decide⟩

/-- C7 (amended): union declarations are not supported — a documented
limitation — and in every shipped output every line mentioning a union is
commented out rather than emitted. -/
theorem union_support_missing :
    "No Union support yet" ∈ readme_limitations ∧
    stdio_pxd_lines.all (fun l => !(mentionsStr "union" l) || isCommentLine l) = true ∧
    stdlib_pxd_lines.all (fun l => !(mentionsStr "union" l)) = true ∧
    ctime_pxd_lines.all (fun l => !(mentionsStr "union" l)) = true := by
  refine ⟨by decide, by decide, by decide, by decide⟩

/-- C8 counterexample: the anonymous union reaching the shipped stdio
output does not receive an ordinal synthetic name — it is named by the
clang location-based display string `(anonymous union at ...:16:3)` — and its
stub is emitted commented out under an explicit `Bug: anonymous
declarations` marker, so anonymous aggregates do not always receive a
usable emitted name. -/
theorem anonymous_ordinal_name_counterexample :
    ((stdio_pxd_lines.filter (fun l => !(isCommentLine l))).any
      (fun l => mentionsStr "anonymous" l)) = false ∧
    stdio_pxd_lines.count
      "#    ctypedef struct (anonymous union at /usr/include/x86_64-linux-gnu/bits/types/__mbstate_t.h:16:3):" = 1 ∧
    stdio_pxd_lines.count "#    Bug: anonymous declarations" = 1 ∧
    "Anonymous struct/enum/union declarations do not output properly" ∈ readme_limitations := by
  refine ⟨by decide, by decide, by decide, by decide⟩

/-- C8 (amended): an anonymous aggregate keeps the deterministic clang
location-based display name `(anonymous <kind> at <file>:<line>:<col>)`,
and its declarations are emitted only as comments — a documented
limitation ("Anonymous struct/enum/union declarations do not output
properly"). -/
theorem anonymous_aggregates_location_named_and_commented :
    stdio_pxd_lines.count
      "#    ctypedef struct (anonymous union at /usr/include/x86_64-linux-gnu/bits/types/__mbstate_t.h:16:3):" = 1 ∧
    stdio_pxd_lines.all
      (fun l => !(mentionsStr "anonymous" l) || isCommentLine l) = true ∧
    "Anonymous struct/enum/union declarations do not output properly" ∈ readme_limitations := by
  refine ⟨by decide, by decide, by decide⟩

/-- C9: variadic C functions are emitted with only their named parameters —
`printf` is emitted exactly as `int printf(const char *__format)`, likewise
the rest of the printf family, and no shipped output line carries a `...`
ellipsis. -/
theorem variadic_functions_emit_named_params_only :
    "    int printf(const char *__format)" ∈ stdio_pxd_lines ∧
    "    int fprintf(FILE *__stream, const char *__format)" ∈ stdio_pxd_lines ∧
    "    int sprintf(char *__s, const char *__format)" ∈ stdio_pxd_lines ∧
    "    int snprintf(char *__s, size_t __maxlen, const char *__format)" ∈ stdio_pxd_lines ∧
    "    int dprintf(int __fd, const char *__fmt)" ∈ stdio_pxd_lines ∧
    stdio_pxd_lines.all (fun l => !(hasEllipsis l.data)) = true ∧
    stdlib_pxd_lines.all (fun l => !(hasEllipsis l.data)) = true ∧
    ctime_pxd_lines.all (fun l => !(hasEllipsis l.data)) = true := by
  refine ⟨by decide, by decide, by decide, by decide, by decide, by decide, by decide,
    by decide⟩

/-- C10: the emitter does not deduplicate by qualified name — in the
shipped stdio output `struct _IO_FILE` is emitted four times and each of
the scanf-family prototypes duplicated in the header is emitted twice. -/
theorem repeated_declarations_not_deduplicated :
    stdio_pxd_lines.count "    struct _IO_FILE:" = 4 ∧
    stdio_pxd_lines.count "    int fscanf(FILE *__stream, const char *__format)" = 2 ∧
    stdio_pxd_lines.count "    int scanf(const char *__format)" = 2 ∧
    stdio_pxd_lines.count "    int sscanf(const char *__s, const char *__format)" = 2 ∧
    stdio_pxd_lines.count
      "    int vfscanf(FILE *__s, const char *__format, __gnuc_va_list __arg)" = 2 ∧
    stdio_pxd_lines.count
      "    int vscanf(const char *__format, __gnuc_va_list __arg)" = 2 ∧
    stdio_pxd_lines.count
      "    int vsscanf(const char *__s, const char *__format, __gnuc_va_list __arg)" = 2 := by
  refine ⟨by decide, by decide, by decide, by decide, by decide, by decide, by decide⟩

/-- Every member surviving `emitClassBody` is non-private and comes from
the source body. -/
theorem mem_emitClassBody (ms : List Member) (m : Member)
    (h : m ∈ emitClassBody ms) : m.access ≠ Access.priv ∧ m ∈ ms := by
  rcases List.mem_filter.mp h with ⟨h1, h2⟩
  exact ⟨of_decide_eq_true h2, h1⟩

/-- C5: no emitted member of a class/struct body is private — every member
of an emitted body is non-private and taken from the source body — and on
`class A` of the test header the body is emitted with the private field
`hidden` omitted and every public member kept in order. -/
theorem private_members_omitted :
    (∀ ms m, m ∈ emitClassBody ms → m.access ≠ Access.priv ∧ m ∈ ms) ∧
    emitClassBody classAMembers =
      [ ⟨"A", Access.pub⟩, ⟨"A", Access.pub⟩, ⟨"static_method", Access.pub⟩,
        ⟨"instance_method", Access.pub⟩, ⟨"fptrfield", Access.pub⟩,
        ⟨"s", Access.pub⟩, ⟨"vs", Access.pub⟩, ⟨"ip", Access.pub⟩,
        ⟨"l", Access.pub⟩, ⟨"t", Access.pub⟩, ⟨"tt", Access.pub⟩,
        ⟨"truefalse", Access.pub⟩, ⟨"Inner", Access.pub⟩ ] ∧
    (emitClassBody classAMembers).all (fun m => m.name != "hidden") = true :=
  ⟨mem_emitClassBody, by decide, by decide⟩

/-- Witness for C5 at a concrete member of the emitted body of `class A`. -/
theorem private_members_omitted_witness :
    (⟨"instance_method", Access.pub⟩ : Member).access ≠ Access.priv ∧
    (⟨"instance_method", Access.pub⟩ : Member) ∈ classAMembers :=
  private_members_omitted.1 classAMembers ⟨"instance_method", Access.pub⟩ (by decide)

/-- A member with an explicit source value is emitted with exactly that
literal, whatever the running counter is. -/
theorem enumValues_explicit :
    ∀ (ms : List (String × Option Int)) (i : Nat) (next : Int) (nm : String) (v : Int),
      ms.get? i = some (nm, some v) → (enumValues ms next).get? i = some (nm, v) := by
  intro ms
  induction ms with
  | nil => intro i next nm v h; simp at h
  | cons m rest ih =>
    intro i next nm v h
    obtain ⟨n0, ov⟩ := m
    match i with
    | 0 =>
      simp only [List.get?] at h
      injection h with h
      rw [h]
      rfl
    | j + 1 =>
      simp only [List.get?] at h
      cases ov with
      | some w => exact ih j (w + 1) nm v h
      | none => exact ih j (next + 1) nm v h

/-- A member with no explicit source value is emitted as the value of the previous
emitted member plus one. -/
theorem enumValues_implicit :
    ∀ (ms : List (String × Option Int)) (i : Nat) (next : Int) (nm : String),
      ms.get? (i + 1) = some (nm, none) →
      (enumValues ms next).get? (i + 1) =
        some (nm, ((enumValues ms next).getD i ("", 0)).2 + 1) := by
  intro ms
  induction ms with
  | nil => intro i next nm h; simp at h
  | cons m rest ih =>
    intro i next nm h
    obtain ⟨n0, ov⟩ := m
    simp only [List.get?] at h
    match i with
    | 0 =>
      cases rest with
      | nil => simp at h
      | cons r rest2 =>
        simp only [List.get?] at h
        injection h with h
        rw [h]
        cases ov with
        | some w => rfl
        | none => rfl
    | j + 1 =>
      cases ov with
      | some w => exact ih j (w + 1) nm h
      | none => exact ih j (next + 1) nm h

/-- C4: explicit enum values are kept as literals, an implicit member
continues from the value of the previous member plus one (not from its
positional index), and enum `D` of the test header — `FOO = 10`, `BAR = 1`,
`BAZ` — is emitted with the values `10`, `1`, `2`. -/
theorem enum_explicit_kept_implicit_continues :
    (∀ (ms : List (String × Option Int)) (i : Nat) (next : Int) (nm : String) (v : Int),
      ms.get? i = some (nm, some v) → (enumValues ms next).get? i = some (nm, v)) ∧
    (∀ (ms : List (String × Option Int)) (i : Nat) (next : Int) (nm : String),
      ms.get? (i + 1) = some (nm, none) →
      (enumValues ms next).get? (i + 1) =
        some (nm, ((enumValues ms next).getD i ("", 0)).2 + 1)) ∧
    enumValues enumD 0 = [("FOO", 10), ("BAR", 1), ("BAZ", 2)] :=
  ⟨enumValues_explicit, enumValues_implicit, by decide⟩

/-- Witness for C4 on enum `D`: `FOO` keeps its literal `10`, and the
implicit `BAZ` is emitted as the value of `BAR` plus one. -/
theorem enum_explicit_kept_implicit_continues_witness :
    (enumValues enumD 0).get? 0 = some ("FOO", 10) ∧
    (enumValues enumD 0).get? 2 =
      some ("BAZ", ((enumValues enumD 0).getD 1 ("", 0)).2 + 1) :=
  ⟨enum_explicit_kept_implicit_continues.1 enumD 0 0 "FOO" 10 (by decide),
   enum_explicit_kept_implicit_continues.2.1 enumD 1 0 "BAZ" (by decide)⟩

/-- C2: a type reference naming a declaration owned by a foreign package is
marked cross-package and referenced through the alias joining the foreign
qualified path with an underscore; in particular `Foo::B::Dataset` used
from package `Bar::Baz` resolves through alias `Foo_B` to the reference
text `Foo_B.Dataset`, and the import resolver collects the corresponding
edge for `Bar::Baz`. -/
theorem cross_package_alias_resolution :
    (∀ (symbols : List (List String × List String))
      (consumer qname : List String) (e : List String × List String),
      symbols.find? (fun x => decide (x.1 = qname)) = some e →
      e.2 ≠ consumer →
      resolveNamed symbols consumer qname =
        Resolution.crossPackage
          ⟨consumer, qname.dropLast, aliasFor qname.dropLast⟩
          (aliasFor qname.dropLast ++ "." ++ qname.getLastD "")) ∧
    resolveNamed cppSymbols ["Bar", "Baz"] ["Foo", "B", "Dataset"] =
      Resolution.crossPackage ⟨["Bar", "Baz"], ["Foo", "B"], "Foo_B"⟩ "Foo_B.Dataset" ∧
    (⟨["Bar", "Baz"], ["Foo", "B"], "Foo_B"⟩ : ImportEdge) ∈
      collectImports barBazResolutions [] := by
  refine ⟨?_, by decide, by decide⟩
  intro symbols consumer qname e h hne
  simp only [resolveNamed, h]
  rw [if_neg hne]

/-- Witness for C2: the resolution of `Foo::B::Dataset` from `Bar::Baz`,
obtained from the cross-package rule at the concrete symbol table of the
test header. -/
theorem cross_package_alias_resolution_witness :
    resolveNamed cppSymbols ["Bar", "Baz"] ["Foo", "B", "Dataset"] =
      Resolution.crossPackage
        ⟨["Bar", "Baz"], ["Foo", "B"], "Foo_B"⟩ "Foo_B.Dataset" :=
  cross_package_alias_resolution.1 cppSymbols ["Bar", "Baz"] ["Foo", "B", "Dataset"]
    (["Foo", "B", "Dataset"], ["Foo"]) (by decide) (by decide)

/-- Every name produced by the stub collector was not already stubbed on
entry. -/
theorem collectStubs_not_seen (known : List String) :
    ∀ (refs seen : List String) (m : String),
      m ∈ collectStubs known refs seen → ¬ m ∈ seen := by
  intro refs
  induction refs with
  | nil => intro seen m h; simp [collectStubs] at h
  | cons n rest ih =>
    intro seen m h
    by_cases hc : n ∈ known ∨ n ∈ seen
    · rw [collectStubs, if_pos hc] at h
      exact ih seen m h
    · rw [collectStubs, if_neg hc] at h
      rcases List.mem_cons.mp h with rfl | h
      · intro hs; exact hc (Or.inr hs)
      · intro hs
        exact ih (n :: seen) m h (List.mem_cons_of_mem n hs)

/-- A referenced name with no declaration in the graph and not yet stubbed
receives exactly one stub. -/
theorem collectStubs_count_one (known : List String) :
    ∀ (refs seen : List String) (n : String),
      n ∈ refs → ¬ n ∈ known → ¬ n ∈ seen →
      (collectStubs known refs seen).count n = 1 := by
  intro refs
  induction refs with
  | nil => intro seen n h; cases h
  | cons r rest ih =>
    intro seen n hmem hk hs
    by_cases hc : r ∈ known ∨ r ∈ seen
    · have hnr : n ≠ r := by
        rintro rfl
        rcases hc with h | h
        · exact hk h
        · exact hs h
      have hrest : n ∈ rest := by
        rcases List.mem_cons.mp hmem with rfl | h
        · exact absurd rfl hnr
        · exact h
      rw [collectStubs, if_pos hc]
      exact ih seen n hrest hk hs
    · rw [collectStubs, if_neg hc]
      by_cases hnr : n = r
      · subst hnr
        have hnotin : ¬ n ∈ collectStubs known rest (n :: seen) := by
          intro hin
          exact collectStubs_not_seen known rest (n :: seen) n hin (List.mem_cons_self n seen)
        rw [List.count_cons_self, List.count_eq_zero.mpr hnotin]
      · have hrest : n ∈ rest := by
          rcases List.mem_cons.mp hmem with rfl | h
          · exact absurd rfl hnr
          · exact h
        have hs2 : ¬ n ∈ r :: seen := by
          intro hin
          rcases List.mem_cons.mp hin with rfl | hin
          · exact hnr rfl
          · exact hs hin
        rw [List.count_cons_of_ne hnr]
        exact ih (r :: seen) n hrest hk hs2

/-- C3: the stub generator produces exactly one stub per distinct
unresolved name, whatever the order and multiplicity of the references;
and in the shipped outputs each stub (`__builtin_va_list` in stdio,
`wchar_t` in stdlib) is emitted exactly once and before every line that
references its name. -/
theorem stub_deduplicated_and_before_references :
    (∀ (known refs seen : List String) (n : String),
      n ∈ refs → ¬ n ∈ known → ¬ n ∈ seen →
      (collectStubs known refs seen).count n = 1) ∧
    stdio_pxd_lines.count "    ctypedef struct __builtin_va_list:" = 1 ∧
    ((idxsWhere (fun l => mentionsStr "__builtin_va_list" l) stdio_pxd_lines).all
      (fun i => decide (firstIdx
        (fun l => l == "    ctypedef struct __builtin_va_list:") stdio_pxd_lines ≤ i)))
      = true ∧
    stdlib_pxd_lines.count "    ctypedef struct wchar_t:" = 1 ∧
    ((idxsWhere (fun l => mentionsStr "wchar_t" l) stdlib_pxd_lines).all
      (fun i => decide (firstIdx
        (fun l => l == "    ctypedef struct wchar_t:") stdlib_pxd_lines ≤ i))) = true :=
  ⟨collectStubs_count_one, by decide, by decide, by decide, by decide⟩

/-- Witness for C3: a name referenced twice and declared nowhere receives
exactly one stub. -/
theorem stub_deduplicated_and_before_references_witness :
    (collectStubs ["int"] ["__builtin_va_list", "int", "__builtin_va_list"] []).count
      "__builtin_va_list" = 1 :=
  stub_deduplicated_and_before_references.1 ["int"]
    ["__builtin_va_list", "int", "__builtin_va_list"] [] "__builtin_va_list"
    (by decide) (by decide) (by decide)

theorem starCount_append (xs ys : List CyTok) :
    starCount (xs ++ ys) = starCount xs + starCount ys := by
  induction xs with
  | nil => simp [starCount]
  | cons c cs ih => cases c <;> simp [starCount, ih, Nat.add_right_comm]

theorem constCount_append (xs ys : List CyTok) :
    constCount (xs ++ ys) = constCount xs + constCount ys := by
  induction xs with
  | nil => simp [constCount]
  | cons c cs ih => cases c <;> simp [constCount, ih, Nat.add_right_comm]

mutual

/-- The emitted token list of a type carries exactly the pointer stars of
the type. -/
theorem starCount_emitToks : ∀ t : CType, starCount (emitToks t) = ptrStars t
  | CType.named b [] => by simp [emitToks, ptrStars, ptrStarsList, starCount]
  | CType.named b (a :: as) => by
    have h := starCount_emitArgsToks (a :: as)
    simp [emitToks, ptrStars, starCount_append, starCount, h]
  | CType.ptr t => by
    have h := starCount_emitToks t
    simp [emitToks, ptrStars, starCount_append, starCount, h]
  | CType.constQ t => by
    have h := starCount_emitToks t
    simp [emitToks, ptrStars, starCount, h]
  | CType.funType r ps => by
    have h1 := starCount_emitToks r
    have h2 := starCount_emitArgsToks ps
    simp [emitToks, ptrStars, starCount_append, starCount, h1, h2]
    omega

/-- The emitted token list of an argument list carries exactly the pointer
stars of the arguments. -/
theorem starCount_emitArgsToks : ∀ ts : List CType,
    starCount (emitArgsToks ts) = ptrStarsList ts
  | [] => by simp [emitArgsToks, ptrStarsList, starCount]
  | [t] => by
    have h := starCount_emitToks t
    simp [emitArgsToks, ptrStarsList, starCount, h]
  | t :: t2 :: ts => by
    have h1 := starCount_emitToks t
    have h2 := starCount_emitArgsToks (t2 :: ts)
    simp [emitArgsToks, ptrStarsList, starCount_append, starCount, h1, h2]

end

mutual

/-- The emitted token list of a type carries exactly the const qualifiers
of the type. -/
theorem constCount_emitToks : ∀ t : CType, constCount (emitToks t) = constLayers t
  | CType.named b [] => by simp [emitToks, constLayers, constLayersList, constCount]
  | CType.named b (a :: as) => by
    have h := constCount_emitArgsToks (a :: as)
    simp [emitToks, constLayers, constCount_append, constCount, h]
  | CType.ptr t => by
    have h := constCount_emitToks t
    simp [emitToks, constLayers, constCount_append, constCount, h]
  | CType.constQ t => by
    have h := constCount_emitToks t
    simp [emitToks, constLayers, constCount, h]
  | CType.funType r ps => by
    have h1 := constCount_emitToks r
    have h2 := constCount_emitArgsToks ps
    simp [emitToks, constLayers, constCount_append, constCount, h1, h2]

/-- The emitted token list of an argument list carries exactly the const
qualifiers of the arguments. -/
theorem constCount_emitArgsToks : ∀ ts : List CType,
    constCount (emitArgsToks ts) = constLayersList ts
  | [] => by simp [emitArgsToks, constLayersList, constCount]
  | [t] => by
    have h := constCount_emitToks t
    simp [emitArgsToks, constLayersList, constCount, h]
  | t :: t2 :: ts => by
    have h1 := constCount_emitToks t
    have h2 := constCount_emitArgsToks (t2 :: ts)
    simp [emitArgsToks, constLayersList, constCount_append, constCount, h1, h2]

end

/-- The emitted argument section is the comma-join of the individually
emitted parameters. -/
theorem emitArgsToks_intercalate : ∀ ts : List CType,
    emitArgsToks ts = List.intercalate [CyTok.comma] (List.map emitToks ts)
  | [] => by simp [emitArgsToks, List.intercalate]
  | [t] => by simp [emitArgsToks, List.intercalate, List.intersperse]
  | t :: t2 :: ts => by
    have ih := emitArgsToks_intercalate (t2 :: ts)
    simp only [emitArgsToks, ih, List.map, List.intercalate, List.intersperse,
      List.flatten, List.cons_append, List.nil_append, List.append_assoc]

/-- C6: a function-pointer-typed field keeps its whole parameter/return
signature as one composite type reference — recoverable intact under any
pointer depth — and its emission renders the declarator with exactly the
pointer depth of the field and the parameter section as the comma-join of the
individually emitted parameters, each of which carries exactly its source
pointer pointer stars and const qualifiers; the field
`int (**foobar)(std::vector<std::vector<const char*>>)` of `struct B` in
the test header keeps return type `int`, one parameter, double pointer
depth, and the single pointer and single const of the parameter. -/
theorem function_pointer_signature_preserved :
    (∀ (ret : CType) (ps : List CType) (d : Nat),
      funSig (ptrN d (CType.funType ret ps)) = some (ret, ps)) ∧
    (∀ (name : String) (ret : CType) (d : Nat) (ps : List CType),
      emitFunPtrField name ret d ps =
        emitToks ret ++ CyTok.lparen :: List.replicate d CyTok.star ++
          [CyTok.ident name, CyTok.rparen, CyTok.lparen] ++
          List.intercalate [CyTok.comma] (List.map emitToks ps) ++ [CyTok.rparen]) ∧
    (∀ ps : List CType, (List.map emitToks ps).length = ps.length) ∧
    (∀ p : CType, starCount (emitToks p) = ptrStars p ∧
      constCount (emitToks p) = constLayers p) ∧
    funSig foobarType = some (CType.named "int" [], [foobarParam]) ∧
    starCount (emitToks foobarParam) = 1 ∧
    constCount (emitToks foobarParam) = 1 ∧
    emitFunPtrField "foobar" (CType.named "int" []) 2 [foobarParam] =
      [CyTok.ident "int", CyTok.lparen, CyTok.star, CyTok.star,
        CyTok.ident "foobar", CyTok.rparen, CyTok.lparen,
        CyTok.ident "std::vector", CyTok.lbrack, CyTok.ident "std::vector",
        CyTok.lbrack, CyTok.constTok, CyTok.ident "char", CyTok.star,
        CyTok.rbrack, CyTok.rbrack, CyTok.rparen] := by
  refine ⟨?_, ?_, ?_, ?_, rfl, rfl, rfl, by decide⟩
  · intro ret ps d
    induction d with
    | zero => rfl
    | succ d ih => exact ih
  · intro name ret d ps
    simp [emitFunPtrField, emitArgsToks_intercalate]
  · intro ps
    exact List.length_map ps emitToks
  · intro p
    exact ⟨starCount_emitToks p, constCount_emitToks p⟩

end PxdGen
